import Mathlib

/-!
Shallow embedding of the nanoclaw gateway (TypeScript) and proofs about the
claims of its specification.  Each definition mirrors one function of the
source; JavaScript strings are modelled as Lean `String` / `List Char`,
JavaScript truthiness of strings and numbers is made explicit, fallible calls
are modelled by oracles passed as function arguments, and network / process
effects are recorded as explicit result lists.
-/

namespace Nanoclaw

/-! ## JavaScript helpers -/

/-- JS truthiness of an optional string: `undefined`, `null` and `""` are falsy. -/
def jsTruthyStr : Option String → Bool
  | none => false
  | some s => s ≠ ""

/-- JS `a || d` for optional strings (empty string is falsy). -/
def jsOrStr (a : Option String) (d : String) : String :=
  match a with
  | none => d
  | some s => if s = "" then d else s

/-- JS `a || d` for optional numbers (0 is falsy). -/
def jsOrNat (a : Option Nat) (d : Nat) : Nat :=
  match a with
  | none => d
  | some n => if n = 0 then d else n

/-- JS `String.prototype.trim`: drop whitespace from both ends (on char lists). -/
def trimChars (l : List Char) : List Char :=
  ((l.dropWhile Char.isWhitespace).reverse.dropWhile Char.isWhitespace).reverse

/-! ## voice-api.ts -/

/-- voice-api.ts: `const DEFAULT_TIMEOUT = 300_000` (5 minutes). -/
def DEFAULT_TIMEOUT : Int := 300000

/-- voice-api.ts: `const MIN_TIMEOUT = 120_000` (2 minutes). -/
def MIN_TIMEOUT : Int := 120000

/-- voice-api.ts `handleRun`: `Math.max(timeout || DEFAULT_TIMEOUT, MIN_TIMEOUT)`.
`timeout` is the optional JSON body field; JS `||` treats 0 as falsy. -/
def effectiveTimeoutMs (timeout : Option Int) : Int :=
  max
    (match timeout with
      | none => DEFAULT_TIMEOUT
      | some t => if t = 0 then DEFAULT_TIMEOUT else t)
    MIN_TIMEOUT

/-- voice-api.ts `startVoiceApi`: the bearer token taken from the
`Authorization` header, `''` when the header is missing or not of the form
`Bearer <tok>` (`authHeader.startsWith('Bearer ') ? authHeader.slice(7) : ''`). -/
def bearerToken (auth : Option String) : String :=
  let h := auth.getD ""
  if ("Bearer ".data).isPrefixOf h.data then ⟨h.data.drop 7⟩ else ""

/-- An HTTP request as seen by the voice API route handler.  `bodyParses`
records whether `readBody` + `JSON.parse` succeed, `inputValid` whether the
parsed body carries a non-empty string `input` field. -/
structure HttpRequest where
  method : String
  path : String
  authorization : Option String
  bodyParses : Bool
  inputValid : Bool
deriving DecidableEq

/-- voice-api.ts `startVoiceApi` request routing.  Returns the HTTP status
sent and whether a container agent run is started (`handleRun` reaching
`runContainerAgent`). -/
def routeVoiceRequest (cfgToken : String) (r : HttpRequest) : Nat × Bool :=
  if r.method = "GET" ∧ r.path = "/health" then (200, false)
  else if bearerToken r.authorization ≠ cfgToken then (401, false)
  else if r.method = "POST" ∧ r.path = "/api/run" then
    (if r.bodyParses then (200, r.inputValid) else (400, false))
  else (404, false)

/-! ## email-intake.ts -/

/-- Code points excluded by the URL regex char class `[^\s<>"')\]},;]`
(besides whitespace): `<` `>` `"` `'` `)` `]` (closing brace) `,` `;`. -/
def urlExcludedCodes : List Nat := [60, 62, 34, 39, 41, 93, 125, 44, 59]

/-- A character the URL regex body class accepts. -/
def isUrlChar (c : Char) : Bool :=
  !(c.isWhitespace || urlExcludedCodes.contains c.toNat)

/-- Case-insensitive literal test: does the input start with the (lowercase)
pattern?  Models a case-insensitive regex literal anchored at a position. -/
def startsWithCI : List Char → List Char → Bool
  | [], _ => true
  | _ :: _, [] => false
  | p :: ps, c :: cs => (c.toLower == p) && startsWithCI ps cs

/-- Case-insensitive substring test (an unanchored `/lit/i` regex). -/
def containsCI (pat : List Char) : List Char → Bool
  | [] => startsWithCI pat []
  | c :: cs => startsWithCI pat (c :: cs) || containsCI pat cs

/-- Case-insensitive literal matcher that also returns the consumed original
characters and the remainder. -/
def matchCI : List Char → List Char → Option (List Char × List Char)
  | [], l => some ([], l)
  | _ :: _, [] => none
  | p :: ps, c :: cs =>
      if c.toLower == p then
        match matchCI ps cs with
        | some r => some (c :: r.1, r.2)
        | none => none
      else none

/-- The `https?:\/\/` part of the URL regex: greedy optional `s` with
backtracking, i.e. try `https://` first, then `http://`. -/
def matchScheme (l : List Char) : Option (List Char × List Char) :=
  match matchCI "https://".data l with
  | some r => some r
  | none => matchCI "http://".data l

/-- Left-to-right global scan of `/https?:\/\/[^\s<>"')\]},;]+/gi`
(email-intake.ts `extractUrls`): at each position try the scheme followed by a
non-empty greedy run of URL characters; on a match emit it and continue after
it, otherwise advance one character.  `fuel` bounds recursion; it is
instantiated with the input length, which the scan never exceeds. -/
def findUrlsF : Nat → List Char → List (List Char)
  | 0, _ => []
  | _, [] => []
  | fuel + 1, c :: cs =>
      match matchScheme (c :: cs) with
      | some r =>
          let body := r.2.takeWhile isUrlChar
          if body.isEmpty then findUrlsF fuel cs
          else (r.1 ++ body) :: findUrlsF fuel (r.2.dropWhile isUrlChar)
      | none => findUrlsF fuel cs

/-- All raw regex matches of the URL pattern in a text. -/
def findUrls (l : List Char) : List (List Char) := findUrlsF l.length l

/-- Code points of the trailing-punctuation class `[.)>,;:!?]+$`:
`.` `)` `>` `,` `;` `:` `!` `?`. -/
def trailingPunctCodes : List Nat := [46, 41, 62, 44, 59, 58, 33, 63]

/-- email-intake.ts: `url.replace(/[.)>,;:!?]+$/, '')`. -/
def stripTrailingPunct (u : List Char) : List Char :=
  (u.reverse.dropWhile (fun c => trailingPunctCodes.contains c.toNat)).reverse

/-- The `/manage.*preferences/i` reject pattern: `manage` somewhere, followed
(possibly after other characters) by `preferences`. -/
def manageThenPreferences : List Char → Bool
  | [] => false
  | c :: cs =>
      (startsWithCI "manage".data (c :: cs) &&
        containsCI "preferences".data ((c :: cs).drop 6)) ||
      manageThenPreferences cs

/-- email-intake.ts `REJECT_PATTERNS.some((p) => p.test(url))`. -/
def rejectUrl (u : List Char) : Bool :=
  containsCI "teams.microsoft.com".data u ||
  containsCI "aka.ms/".data u ||
  containsCI "google.com/calendar".data u ||
  containsCI "dialin.teams".data u ||
  containsCI "unsubscribe".data u ||
  manageThenPreferences u ||
  containsCI "tracking".data u ||
  containsCI "click.".data u ||
  containsCI "open.".data u ||
  startsWithCI "tel:".data u ||
  startsWithCI "mailto:".data u

/-- email-intake.ts: `const MIN_URL_LENGTH = 15`. -/
def MIN_URL_LENGTH : Nat := 15

/-- The per-match body of `extractUrls`: strip trailing punctuation, drop
short URLs, drop blacklisted URLs, dedup with the `seen` set, keep the rest in
order. -/
def filterUrls (seen : List (List Char)) : List (List Char) → List (List Char)
  | [] => []
  | u :: rest =>
      let u2 := stripTrailingPunct u
      if u2.length < MIN_URL_LENGTH then filterUrls seen rest
      else if rejectUrl u2 then filterUrls seen rest
      else if seen.contains u2 then filterUrls seen rest
      else u2 :: filterUrls (u2 :: seen) rest

/-- email-intake.ts `extractUrls`. -/
def extractUrls (s : String) : List String :=
  (filterUrls [] (findUrls s.data)).map (fun l => ⟨l⟩)

/-- A Gmail message as listed by the poller (`gog gmail list`). -/
structure GogMessage where
  id : String
  threadId : String
deriving DecidableEq

/-- What the poller did for one message: the relay calls it made (in order)
and whether it went on to label the thread processed. -/
structure MsgOutcome where
  relayCalls : List String
  labeled : Bool
deriving DecidableEq

/-- email-intake.ts `pollEmailIntake` relay loop: call `bookmarkViaRelay` for
each URL in order, stopping at the first failure.  Returns the calls made and
whether all succeeded (`!relayFailed`).  `relayOk` is the oracle for
`bookmarkViaRelay`'s boolean result. -/
def attemptRelays (relayOk : String → Bool) : List String → List String × Bool
  | [] => ([], true)
  | u :: rest =>
      if relayOk u then
        let r := attemptRelays relayOk rest
        (u :: r.1, r.2)
      else ([u], false)

/-- email-intake.ts `pollEmailIntake`, one message of the batch: fetch the
body (`gog gmail get`, oracle `getBody`; `none` models a failure, which skips
the message), extract URLs, relay them, and label the thread processed only
when no relay call failed. -/
def processEmailMessage (getBody : String → Option String) (relayOk : String → Bool)
    (m : GogMessage) : MsgOutcome :=
  match getBody m.id with
  | none => ⟨[], false⟩
  | some body =>
      let r := attemptRelays relayOk (extractUrls body)
      ⟨r.1, r.2⟩

/-- email-intake.ts `pollEmailIntake` over a listed batch. -/
def pollEmailIntake (getBody : String → Option String) (relayOk : String → Bool)
    (msgs : List GogMessage) : List MsgOutcome :=
  msgs.map (processEmailMessage getBody relayOk)

/-! ## voice-api.ts result stripping -/

/-- The literal marker `<internal>`. -/
def internalOpenTag : List Char := "<internal>".data

/-- The literal marker `</internal>`. -/
def internalCloseTag : List Char := "</internal>".data

/-- Find the first occurrence of `</internal>` and return everything after
it; `none` when the closing marker does not occur (the lazy `[\s\S]*?` of the
regex stops at the earliest closing marker). -/
def afterInternalClose : List Char → Option (List Char)
  | [] => none
  | c :: cs =>
      if internalCloseTag.isPrefixOf (c :: cs) then some ((c :: cs).drop 11)
      else afterInternalClose cs

/-- One left-to-right pass of
`raw.replace(/<internal>[\s\S]*?<\/internal>/g, '')` (voice-api.ts
`handleRun`): at each position, if `<internal>` matches here and `</internal>`
occurs later, delete through the earliest `</internal>` and continue after it;
if `<internal>` matches but never closes, nothing can match in the remainder,
which is kept verbatim.  `fuel` bounds the recursion and is instantiated with
the input length, which each step stays under. -/
def removeInternalF : Nat → List Char → List Char
  | 0, l => l
  | _, [] => []
  | fuel + 1, c :: cs =>
      if internalOpenTag.isPrefixOf (c :: cs) then
        match afterInternalClose ((c :: cs).drop 10) with
        | some rest => removeInternalF fuel rest
        | none => c :: cs
      else c :: removeInternalF fuel cs

/-- The global regex replace over a whole string. -/
def removeInternal (l : List Char) : List Char := removeInternalF l.length l

/-- voice-api.ts `handleRun`:
`raw.replace(/<internal>[\s\S]*?<\/internal>/g, '').trim()`. -/
def stripInternal (raw : String) : String := ⟨trimChars (removeInternal raw.data)⟩

/-- voice-api.ts `handleRun`: the stripped text is dispatched only when
non-empty (`if (text)` with JS empty-string falsiness), so an
empty-after-strip result is never sent. -/
def dispatchVoiceResult (raw : String) : Option String :=
  let text := stripInternal raw
  if text = "" then none else some text

/-! ## channels/slack.ts — SlackChannel -/

/-- slack.ts constructor: JID prefix for DMs, `slack:` or `slack:<ns>:`
(an empty namespace is falsy in JS and behaves as no namespace). -/
def dmPrefixFor (ns : String) : String :=
  if ns = "" then "slack:" else "slack:" ++ ns ++ ":"

/-- slack.ts constructor: JID prefix for channels, `slack:channel:` or
`slack:<ns>:channel:`. -/
def channelPrefixFor (ns : String) : String :=
  if ns = "" then "slack:channel:" else "slack:" ++ ns ++ ":channel:"

/-- types.ts `NewMessage`: the normalized inbound message handed to the
channel's on-message callback. -/
structure NewMessage where
  id : String
  chat_jid : String
  sender : String
  sender_name : String
  content : String
  timestamp : String
  is_from_me : Bool
  is_bot_message : Bool
deriving DecidableEq

/-- One global-replace pass of slack.ts `stripBotMention`: delete every
occurrence of the mention pattern `<@BOT>` together with the whitespace run
following it (`\s*`).  Fueled like the other replace embeddings. -/
def stripMentionF (pat : List Char) : Nat → List Char → List Char
  | 0, l => l
  | _, [] => []
  | fuel + 1, c :: cs =>
      if pat.isPrefixOf (c :: cs) then
        stripMentionF pat fuel (((c :: cs).drop pat.length).dropWhile Char.isWhitespace)
      else c :: stripMentionF pat fuel cs

/-- slack.ts `stripBotMention`: no-op without a bot user id; otherwise remove
all `<@BOT>` mentions (plus trailing whitespace) and trim. -/
def stripBotMention (botUserId : Option String) (text : String) : String :=
  if jsTruthyStr botUserId then
    let pat := ("<@" ++ botUserId.getD "" ++ ">").data
    ⟨trimChars (stripMentionF pat text.data.length text.data)⟩
  else text

/-- The fields of a Slack `message` event payload the listener reads. -/
structure SlackPayload where
  bot_id : Option String
  subtype : Option String
  user : Option String
  channel : String
  channel_type : String
  text : String
  ts : String
deriving DecidableEq

/-- slack.ts `setupListeners` message handler.  Returns the `NewMessage`
passed to the on-message callback, or `none` when the payload is dropped.
`registered` is membership in `registeredGroups()`; `autoRegister` models
`onNewContact` registering the chat; `senderNameOf` models `resolveUserName`;
`isoOf` models `slackTsToIso` (float/date conversion kept abstract). -/
def slackHandleMessage (ns : String) (botUserId : Option String)
    (registered autoRegister : String → Bool)
    (senderNameOf isoOf : String → String)
    (p : SlackPayload) : Option NewMessage :=
  if jsTruthyStr p.bot_id || jsTruthyStr p.subtype then none
  else if !jsTruthyStr p.user then none
  else
    let uid := p.user.getD ""
    if botUserId = some uid then none
    else
      let isDm := p.channel_type = "im"
      let chatJid := if isDm then dmPrefixFor ns ++ uid else channelPrefixFor ns ++ p.channel
      let cleanText := if isDm then p.text else stripBotMention botUserId p.text
      if registered chatJid || autoRegister chatJid then
        some {
          id := "slack_" ++ p.ts ++ "_" ++ uid,
          chat_jid := chatJid,
          sender := dmPrefixFor ns ++ uid,
          sender_name := senderNameOf uid,
          content := cleanText,
          timestamp := isoOf p.ts,
          is_from_me := false,
          is_bot_message := false }
      else none

/-- slack.ts `ownsJid` helper: JS `jid.charAt(6) === jid.charAt(6).toUpperCase()`;
for a string of length ≤ 6 `charAt` yields `''`, which equals its own
uppercase. -/
def charAt6IsUpperSelf (jid : List Char) : Bool :=
  match jid[6]? with
  | none => true
  | some c => c.toUpper == c

/-- slack.ts `ownsJid`.  A namespaced instance owns exactly the JIDs with its
injected prefix `slack:<ns>:` (spelled out at character level); the default
instance owns `slack:`-prefixed JIDs whose 7th character is not lowercase, or
that start with `slack:channel:`. -/
def slackOwnsJid (ns : String) (jid : List Char) : Bool :=
  if ns ≠ "" then ("slack:".data ++ ns.data ++ [':']).isPrefixOf jid
  else
    if ("slack:".data).isPrefixOf jid then
      charAt6IsUpperSelf jid || ("slack:channel:".data).isPrefixOf jid
    else false

/-- slack.ts `SlackChannel` connection state.  The Slack channel keeps no
outgoing queue. -/
structure SlackState where
  connected : Bool
deriving DecidableEq

/-- slack.ts `SlackChannel.sendMessage`: post to the transport regardless of
connection state; on failure log and rethrow (`throw err`).  `postOk` is the
oracle for `chat.postMessage` succeeding.  The result carries the transport
posts made. -/
def slackSendMessage (postOk : String → String → Bool) (st : SlackState)
    (jid text : String) : Except String (SlackState × List (String × String)) :=
  if postOk jid text then .ok (st, [(jid, text)])
  else .error "Failed to send Slack message"

/-! ## channels/slack.ts — SignalChannel -/

/-- signal-cli envelope `groupInfo`. -/
structure SignalGroupInfo where
  groupId : String
deriving DecidableEq

/-- signal-cli envelope `dataMessage`. -/
structure SignalDataMessage where
  message : Option String
  timestamp : Option Nat
  groupInfo : Option SignalGroupInfo
deriving DecidableEq

/-- signal-cli envelope `syncMessage.sentMessage`. -/
structure SignalSentMessage where
  message : Option String
  timestamp : Option Nat
  destination : Option String
  groupInfo : Option SignalGroupInfo
deriving DecidableEq

/-- signal-cli envelope `syncMessage`. -/
structure SignalSyncMessage where
  sentMessage : Option SignalSentMessage
deriving DecidableEq

/-- A signal-cli receive entry's envelope. -/
structure SignalEnvelope where
  source : Option String
  sourceName : Option String
  sourceNumber : Option String
  timestamp : Option Nat
  dataMessage : Option SignalDataMessage
  syncMessage : Option SignalSyncMessage
deriving DecidableEq

/-- The argument record slack.ts `SignalChannel.processInbound` receives. -/
structure SignalInbound where
  source : String
  sourceName : Option String
  message : String
  timestamp : Nat
  groupId : Option String
  isFromMe : Bool

/-- slack.ts `SignalChannel.processInbound`: build the chat JID, flag
self-authored traffic (`isFromMe || source === account`), and invoke the
on-message callback when the chat is registered — self-authored payloads are
delivered too, only marked `is_from_me`/`is_bot_message`. -/
def signalProcessInbound (account : String) (registered : String → Bool)
    (isoOf : Nat → String) (msg : SignalInbound) : Option NewMessage :=
  let isGroup := match msg.groupId with
    | some g => g != ""
    | none => false
  let chatJid := if isGroup then "sig:group:" ++ msg.groupId.getD "" else "sig:" ++ msg.source
  let isFromMe := msg.isFromMe || msg.source == account
  if registered chatJid then
    some {
      id := "sig_" ++ toString msg.timestamp ++ "_" ++ msg.source,
      chat_jid := chatJid,
      sender := msg.source,
      sender_name := jsOrStr msg.sourceName msg.source,
      content := msg.message,
      timestamp := isoOf msg.timestamp,
      is_from_me := isFromMe,
      is_bot_message := isFromMe }
  else none

/-- slack.ts `SignalChannel.handleEntry`: a data message is processed as
inbound; a sync message (sent from the account's other device) is processed
with `source = account` and `isFromMe = true`.  Returns the messages passed
to the on-message callback. -/
def signalHandleEntry (account : String) (registered : String → Bool)
    (isoOf : Nat → String) (now : Nat) (env : SignalEnvelope) : List NewMessage :=
  let fromData :=
    match env.dataMessage with
    | some dm =>
        match dm.message with
        | some m =>
            if m ≠ "" then
              (signalProcessInbound account registered isoOf {
                source := jsOrStr env.source (jsOrStr env.sourceNumber ""),
                sourceName := env.sourceName,
                message := m,
                timestamp := jsOrNat dm.timestamp (jsOrNat env.timestamp now),
                groupId := dm.groupInfo.map SignalGroupInfo.groupId,
                isFromMe := false }).toList
            else []
        | none => []
    | none => []
  let fromSync :=
    match env.syncMessage with
    | some sm =>
        match sm.sentMessage with
        | some sent =>
            match sent.message with
            | some m =>
                if m ≠ "" then
                  (signalProcessInbound account registered isoOf {
                    source := account,
                    sourceName := none,
                    message := m,
                    timestamp := jsOrNat sent.timestamp (jsOrNat env.timestamp now),
                    groupId := sent.groupInfo.map SignalGroupInfo.groupId,
                    isFromMe := true }).toList
                else []
            | none => []
        | none => []
    | none => []
  fromData ++ fromSync

/-- slack.ts `SignalChannel` connection state and in-memory outgoing queue. -/
structure SignalState where
  connected : Bool
  outgoingQueue : List (String × String)
deriving DecidableEq

/-- slack.ts `SignalChannel.sendViaRpc`: throws when the JSON-RPC `send`
returns null.  `rpcOk` is the oracle for the RPC outcome. -/
def sendViaRpc (rpcOk : String → String → Bool) (jid text : String) : Except String Unit :=
  if rpcOk jid text then .ok () else .error ("Signal send failed for " ++ jid)

/-- slack.ts `SignalChannel.sendMessage`: while disconnected, enqueue and
return; while connected, attempt the RPC and on failure catch, re-enqueue and
return.  Never propagates an error.  The second component lists the RPC
`send` calls made. -/
def signalSendMessage (rpcOk : String → String → Bool) (st : SignalState)
    (jid text : String) : Except String (SignalState × List (String × String)) :=
  if !st.connected then
    .ok ({ st with outgoingQueue := st.outgoingQueue ++ [(jid, text)] }, [])
  else
    match sendViaRpc rpcOk jid text with
    | .ok _ => .ok (st, [(jid, text)])
    | .error _ => .ok ({ st with outgoingQueue := st.outgoingQueue ++ [(jid, text)] }, [(jid, text)])

/-- slack.ts `SignalChannel.flushOutgoingQueue`: shift and send items in FIFO
order; a failing RPC aborts the flush (the shifted item is lost, the rest of
the queue survives).  Returns (remaining queue, RPC calls made, completed). -/
def flushOutgoingQueue (rpcOk : String → String → Bool) :
    List (String × String) → List (String × String) × List (String × String) × Bool
  | [] => ([], [], true)
  | item :: rest =>
      match sendViaRpc rpcOk item.1 item.2 with
      | .ok _ =>
          let r := flushOutgoingQueue rpcOk rest
          (r.1, item :: r.2.1, r.2.2)
      | .error _ => (rest, [item], false)

/-- slack.ts `SignalChannel.connect`: verify the daemon (`version` RPC,
oracle `versionOk`), mark connected, flush the queue (errors of the flush are
caught and only logged). -/
def signalConnect (versionOk : Bool) (rpcOk : String → String → Bool) (st : SignalState) :
    Except String (SignalState × List (String × String)) :=
  if !versionOk then .error "Cannot reach signal-cli JSON-RPC"
  else
    let st1 : SignalState := { st with connected := true }
    let r := flushOutgoingQueue rpcOk st1.outgoingQueue
    .ok ({ st1 with outgoingQueue := r.1 }, r.2.1)

end Nanoclaw

namespace Nanoclaw

/-! ## Claim C8 — health endpoint and 404 fallback -/

/-- C8 counterexample: the claim says every request whose path is neither
`/health` nor `/api/run` receives status 404, but with a non-empty configured
token a GET of `/nope` without an Authorization header is answered 401, not
404, because the auth check runs before the 404 fallback. -/
theorem voice_404_counterexample :
    routeVoiceRequest "secret" ⟨"GET", "/nope", none, true, true⟩ = (401, false) ∧
    (401 : Nat) ≠ 404 := by
  constructor
  · rfl
  · decide

/-- C8 amended: `GET /health` is answered 200 unconditionally; a request that
passes the bearer check and matches neither `GET /health` nor `POST /api/run`
is answered 404; a request other than `GET /health` that fails the bearer
check is answered 401 (and starts no agent). -/
theorem voice_routing_amended :
    (∀ (cfg : String) (auth : Option String) (b i : Bool),
      routeVoiceRequest cfg ⟨"GET", "/health", auth, b, i⟩ = (200, false))
    ∧ (∀ (cfg : String) (r : HttpRequest),
        bearerToken r.authorization = cfg →
        ¬(r.method = "GET" ∧ r.path = "/health") →
        ¬(r.method = "POST" ∧ r.path = "/api/run") →
        routeVoiceRequest cfg r = (404, false))
    ∧ (∀ (cfg : String) (r : HttpRequest),
        ¬(r.method = "GET" ∧ r.path = "/health") →
        bearerToken r.authorization ≠ cfg →
        routeVoiceRequest cfg r = (401, false)) := by
  refine ⟨?_, ?_, ?_⟩
  · intro cfg auth b i
    simp [routeVoiceRequest]
  · intro cfg r htok hh hr
    simp [routeVoiceRequest, htok, hh, hr]
  · intro cfg r hh htok
    simp [routeVoiceRequest, hh, htok]

/-- C8 amended, witness: an authorized GET of `/other` is answered 404. -/
theorem voice_routing_amended_witness :
    routeVoiceRequest "tok" ⟨"GET", "/other", some "Bearer tok", true, true⟩ = (404, false) :=
  voice_routing_amended.2.1 "tok" ⟨"GET", "/other", some "Bearer tok", true, true⟩
    (by decide) (by decide) (by decide)

/-! ## Claim C9 — per-turn deadline -/

/-- C9 counterexample: a run requesting `timeout: 0` receives the 300000 ms
default (JS `timeout || DEFAULT_TIMEOUT` treats 0 as absent), not
`max 0 120000 = 120000` as the claim's formula states. -/
theorem voice_timeout_counterexample :
    effectiveTimeoutMs (some 0) = 300000 ∧
    max (0 : Int) 120000 = 120000 ∧
    (300000 : Int) ≠ 120000 := by
  refine ⟨by decide, by decide, by decide⟩

/-- C9 amended: for a nonzero requested timeout the deadline is its max with
the 120000 ms floor; an absent or zero timeout falls back to the 300000 ms
default; no run ever gets a deadline below 120000 ms. -/
theorem voice_timeout_amended :
    (∀ t : Int, t ≠ 0 → effectiveTimeoutMs (some t) = max t MIN_TIMEOUT)
    ∧ effectiveTimeoutMs none = DEFAULT_TIMEOUT
    ∧ effectiveTimeoutMs (some 0) = DEFAULT_TIMEOUT
    ∧ (∀ o : Option Int, MIN_TIMEOUT ≤ effectiveTimeoutMs o) := by
  refine ⟨?_, by decide, by decide, ?_⟩
  · intro t ht
    simp [effectiveTimeoutMs, ht]
  · intro o
    exact le_max_right _ _

/-- C9 amended, witness: a requested 60000 ms timeout is raised to the floor. -/
theorem voice_timeout_amended_witness :
    effectiveTimeoutMs (some 60000) = max 60000 MIN_TIMEOUT :=
  voice_timeout_amended.1 60000 (by decide)

/-! ## Claim C10 — bearer-token guard -/

/-- C10: with a non-empty configured token, any request other than
`GET /health` whose Authorization header does not carry that bearer token is
answered 401 and starts no container agent; with the default empty token a
request with no Authorization header passes the check (`bearerToken none`
computes to `""`) and `POST /api/run` starts an agent. -/
theorem voice_auth_guard :
    (∀ (cfg : String) (r : HttpRequest), cfg ≠ "" →
      ¬(r.method = "GET" ∧ r.path = "/health") →
      bearerToken r.authorization ≠ cfg →
      routeVoiceRequest cfg r = (401, false))
    ∧ bearerToken none = ""
    ∧ routeVoiceRequest "" ⟨"POST", "/api/run", none, true, true⟩ = (200, true) := by
  refine ⟨?_, by decide, by decide⟩
  intro cfg r _ hh htok
  simp [routeVoiceRequest, hh, htok]

/-- C10 witness: with token `secret` configured, a bare `POST /api/run` is
rejected with 401 and no agent starts. -/
theorem voice_auth_guard_witness :
    routeVoiceRequest "secret" ⟨"POST", "/api/run", none, true, true⟩ = (401, false) :=
  voice_auth_guard.1 "secret" ⟨"POST", "/api/run", none, true, true⟩
    (by decide) (by decide) (by decide)

/-! ## Claim C5 — URL extraction scenario -/

/-- C5: on the S3 email body, `extractUrls` returns exactly
`https://example.com/a`: the comma ends the first match, the teams link is
rejected by the blacklist after its trailing period is stripped, and
`http://x` is below the 15-character floor. -/
theorem email_url_extraction_scenario :
    extractUrls
        "See https://example.com/a, and https://teams.microsoft.com/meeting/xyz. Also http://x"
      = ["https://example.com/a"] := by
  decide

/-! ## Claim C6 — per-message intake atomicity -/

/-- The relay loop succeeds exactly when every URL's relay call succeeds. -/
theorem attemptRelays_all_eq (relayOk : String → Bool) (us : List String) :
    (attemptRelays relayOk us).2 = us.all relayOk := by
  induction us with
  | nil => rfl
  | cons u rest ih =>
      by_cases h : relayOk u = true
      · simp [attemptRelays, h, ih]
      · simp only [Bool.not_eq_true] at h
        simp [attemptRelays, h]

/-- When every relay call succeeds, the loop calls the relay once per URL, in
order. -/
theorem attemptRelays_calls_of_ok (relayOk : String → Bool) (us : List String)
    (h : us.all relayOk = true) : (attemptRelays relayOk us).1 = us := by
  induction us with
  | nil => rfl
  | cons u rest ih =>
      simp only [List.all_cons, Bool.and_eq_true] at h
      simp [attemptRelays, h.1, ih h.2]

/-- A failing relay call stops the loop: the calls made are the successful
front plus the single failing URL. -/
theorem attemptRelays_stop (relayOk : String → Bool) (us1 : List String) (u : String)
    (us2 : List String) (h1 : us1.all relayOk = true) (h2 : relayOk u = false) :
    (attemptRelays relayOk (us1 ++ u :: us2)).1 = us1 ++ [u] := by
  induction us1 with
  | nil => simp [attemptRelays, h2]
  | cons a rest ih =>
      simp only [List.all_cons, Bool.and_eq_true] at h1
      simp [attemptRelays, h1.1, ih h1.2]

/-- C6: the intake poller is per-message atomic.  The outcome of the i-th
message of a batch is a function of that message alone (a failure elsewhere
in the batch cannot prevent its labeling); a message is labeled processed iff
every relay call for its extracted URLs succeeded; a message whose body fetch
fails is not labeled; and a failing relay call stops that message's
processing at the failing URL and leaves it unlabeled for retry. -/
theorem email_intake_atomicity (getBody : String → Option String) (relayOk : String → Bool)
    (msgs : List GogMessage) (i : Nat) (m : GogMessage) (h : msgs[i]? = some m) :
    (pollEmailIntake getBody relayOk msgs)[i]? = some (processEmailMessage getBody relayOk m)
    ∧ (∀ body, getBody m.id = some body →
        ((processEmailMessage getBody relayOk m).labeled = true ↔
          (extractUrls body).all relayOk = true))
    ∧ (getBody m.id = none → (processEmailMessage getBody relayOk m).labeled = false)
    ∧ (∀ body us1 u us2, getBody m.id = some body →
        extractUrls body = us1 ++ u :: us2 → us1.all relayOk = true → relayOk u = false →
        (processEmailMessage getBody relayOk m).relayCalls = us1 ++ [u]
        ∧ (processEmailMessage getBody relayOk m).labeled = false) := by
  refine ⟨?_, ?_, ?_, ?_⟩
  · simp [pollEmailIntake, List.getElem?_map, h]
  · intro body hb
    simp [processEmailMessage, hb, attemptRelays_all_eq]
  · intro hb
    simp [processEmailMessage, hb]
  · intro body us1 u us2 hb he hok hfail
    constructor
    · simp [processEmailMessage, hb, he, attemptRelays_stop relayOk us1 u us2 hok hfail]
    · simp [processEmailMessage, hb, he, attemptRelays_all_eq, List.all_append, hfail]

/-- C6 witness: a two-message batch, all relays succeeding, first message
outcome as computed by processing it alone. -/
theorem email_intake_atomicity_witness :
    (pollEmailIntake (fun _ => some "go https://example.com/abc now") (fun _ => true)
        [⟨"m1", "t1"⟩, ⟨"m2", "t2"⟩])[0]?
      = some (processEmailMessage (fun _ => some "go https://example.com/abc now")
          (fun _ => true) ⟨"m1", "t1"⟩) :=
  (email_intake_atomicity (fun _ => some "go https://example.com/abc now") (fun _ => true)
    [⟨"m1", "t1"⟩, ⟨"m2", "t2"⟩] 0 ⟨"m1", "t1"⟩ (by decide)).1

/-! ## Claim C1 — internal-marker stripping -/

/-- C1 counterexample: the replace is a single left-to-right pass, so a
removal can reassemble marker text around it.  On the raw result
`<int<internal>x</internal>ernal>y</internal>` the first (leftmost, lazy)
match is the inner `<internal>x</internal>`; deleting it splices the
surrounding text into `<internal>y</internal>`, which is dispatched —
content enclosed in the literal markers reaches the send. -/
theorem internal_strip_counterexample :
    dispatchVoiceResult "<int<internal>x</internal>ernal>y</internal>"
      = some "<internal>y</internal>"
    ∧ "<internal>y</internal>" = "<internal>" ++ "y" ++ "</internal>" := by
  constructor
  · decide
  · decide

/-- C1 amended: the dispatched text is the raw result with the leftmost
non-overlapping lazy matches of `<internal>…</internal>` removed in one pass
and the remainder trimmed (`stripInternal`); a string that is empty after
stripping is never dispatched; and the S6 scenario holds: marker-free removal
is exact on `Here is the answer.<internal>debug=42</internal>`. -/
theorem internal_strip_amended :
    dispatchVoiceResult "Here is the answer.<internal>debug=42</internal>"
      = some "Here is the answer."
    ∧ (∀ raw t, dispatchVoiceResult raw = some t → t = stripInternal raw ∧ t ≠ "")
    ∧ (∀ raw, stripInternal raw = "" → dispatchVoiceResult raw = none) := by
  refine ⟨by decide, ?_, ?_⟩
  · intro raw t h
    by_cases he : stripInternal raw = ""
    · simp [dispatchVoiceResult, he] at h
    · simp only [dispatchVoiceResult, if_neg he, Option.some.injEq] at h
      exact ⟨h.symm, h ▸ he⟩
  · intro raw he
    simp [dispatchVoiceResult, he]

/-- C1 amended witness: a dispatched result equals the stripped raw text and
is non-empty. -/
theorem internal_strip_amended_witness :
    "hi" = stripInternal "hi<internal>z</internal>" ∧ "hi" ≠ "" :=
  internal_strip_amended.2.1 "hi<internal>z</internal>" "hi" (by decide)

/-! ## Claim C2 — self-echo suppression -/

/-- C2 counterexample: a Signal device-sync payload is authored by the bot's
configured account, yet `handleEntry`/`processInbound` still invoke the
on-message callback for it (for a registered chat), merely flagging it
`is_from_me`/`is_bot_message` — the drop happens in the Router, not at the
channel boundary. -/
theorem self_echo_counterexample :
    signalHandleEntry "+1" (fun j => j == "sig:+1") (fun _ => "ts") 0
        { source := none, sourceName := none, sourceNumber := none, timestamp := some 5,
          dataMessage := none,
          syncMessage := some ⟨some ⟨some "hi", some 7, some "+2", none⟩⟩ }
      = [{ id := "sig_7_+1", chat_jid := "sig:+1", sender := "+1", sender_name := "+1",
           content := "hi", timestamp := "ts", is_from_me := true,
           is_bot_message := true }] := by
  decide

/-- Shape of a message delivered by `signalProcessInbound`: sender and
self-flags come straight from the inbound record. -/
theorem signalProcessInbound_fields (account : String) (registered : String → Bool)
    (isoOf : Nat → String) (msg : SignalInbound) (m : NewMessage)
    (h : signalProcessInbound account registered isoOf msg = some m) :
    m.sender = msg.source
    ∧ m.is_from_me = (msg.isFromMe || msg.source == account)
    ∧ m.is_bot_message = (msg.isFromMe || msg.source == account) := by
  simp only [signalProcessInbound] at h
  split at h <;> split at h <;>
    first
      | (rw [Option.some.injEq] at h; subst h; exact ⟨rfl, rfl, rfl⟩)
      | (exact absurd h (by simp))

/-- Every message `handleEntry` delivers comes out of `processInbound`. -/
theorem signalHandleEntry_sources (account : String) (registered : String → Bool)
    (isoOf : Nat → String) (now : Nat) (env : SignalEnvelope) (m : NewMessage)
    (hm : m ∈ signalHandleEntry account registered isoOf now env) :
    ∃ msg : SignalInbound, signalProcessInbound account registered isoOf msg = some m := by
  simp only [signalHandleEntry, List.mem_append] at hm
  rcases hm with hm | hm <;>
    (repeat' split at hm) <;>
    first
      | (rw [Option.mem_toList, Option.mem_def] at hm; exact ⟨_, hm⟩)
      | (exact absurd hm (by simp))

/-- C2 amended: the Slack channel does drop payloads authored by the bot
identity (own user id, or any `bot_id`-carrying payload) before its
on-message callback; the Signal channel instead delivers self-authored
payloads to the callback with `is_from_me` and `is_bot_message` set, leaving
the drop to the Router. -/
theorem self_echo_amended :
    (∀ (ns : String) (bot : Option String) (registered autoRegister : String → Bool)
        (nameOf isoOf : String → String) (p : SlackPayload) (uid : String),
        p.user = some uid → bot = some uid →
        slackHandleMessage ns bot registered autoRegister nameOf isoOf p = none)
    ∧ (∀ (ns : String) (bot : Option String) (registered autoRegister : String → Bool)
        (nameOf isoOf : String → String) (p : SlackPayload),
        jsTruthyStr p.bot_id = true →
        slackHandleMessage ns bot registered autoRegister nameOf isoOf p = none)
    ∧ (∀ (account : String) (registered : String → Bool) (isoOf : Nat → String)
        (now : Nat) (env : SignalEnvelope) (m : NewMessage),
        m ∈ signalHandleEntry account registered isoOf now env →
        m.sender = account →
        m.is_from_me = true ∧ m.is_bot_message = true) := by
  refine ⟨?_, ?_, ?_⟩
  · intro ns bot registered autoRegister nameOf isoOf p uid hu hb
    simp only [slackHandleMessage, hu, hb]
    split
    · rfl
    · split
      · rfl
      · simp
  · intro ns bot registered autoRegister nameOf isoOf p h
    simp [slackHandleMessage, h]
  · intro account registered isoOf now env m hm hsender
    obtain ⟨msg, hmsg⟩ := signalHandleEntry_sources account registered isoOf now env m hm
    obtain ⟨h1, h2, h3⟩ := signalProcessInbound_fields _ _ _ _ _ hmsg
    rw [h1] at hsender
    rw [h2, h3, hsender]
    simp

/-- C2 amended witness: a Slack DM payload authored by the bot's own user id
is dropped. -/
theorem self_echo_amended_witness :
    slackHandleMessage "" (some "U9") (fun _ => true) (fun _ => false) id id
        ⟨none, none, some "U9", "C1", "im", "hello", "1.0"⟩ = none :=
  self_echo_amended.1 "" (some "U9") (fun _ => true) (fun _ => false) id id
    ⟨none, none, some "U9", "C1", "im", "hello", "1.0"⟩ "U9" rfl rfl

/-! ## Claim C3 — offline queue -/

/-- C3 counterexample: the Slack channel has no offline queue at all — a
`send` issued while `is-connected()` is false goes straight to the transport
(`chat.postMessage`), so nothing is enqueued and nothing is drained on
reconnect; only the Signal channel implements the queue. -/
theorem offline_queue_counterexample :
    slackSendMessage (fun _ _ => true) ⟨false⟩ "slack:U1" "A"
      = .ok (⟨false⟩, [("slack:U1", "A")]) := by
  rfl

/-- Flushing a queue whose sends all succeed sends every queued pair in FIFO
order and empties the queue. -/
theorem flushOutgoingQueue_all_ok (rpcOk : String → String → Bool)
    (q : List (String × String)) (h : ∀ p ∈ q, rpcOk p.1 p.2 = true) :
    flushOutgoingQueue rpcOk q = ([], q, true) := by
  induction q with
  | nil => rfl
  | cons item rest ih =>
      have hi : rpcOk item.1 item.2 = true := h item (List.mem_cons_self item rest)
      have hr := ih fun p hp => h p (List.mem_cons_of_mem item hp)
      simp [flushOutgoingQueue, sendViaRpc, hi, hr]

/-- C3 amended: for the Signal channel, a `send` while disconnected appends
the pair to the in-memory queue and makes no transport call, and a reconnect
whose RPC sends all succeed drains the queue in FIFO order, making exactly
one transport send per queued pair, in order. -/
theorem offline_queue_amended :
    (∀ (rpcOk : String → String → Bool) (st : SignalState) (jid text : String),
        st.connected = false →
        signalSendMessage rpcOk st jid text
          = .ok ({ st with outgoingQueue := st.outgoingQueue ++ [(jid, text)] }, []))
    ∧ (∀ (rpcOk : String → String → Bool) (st : SignalState),
        (∀ p ∈ st.outgoingQueue, rpcOk p.1 p.2 = true) →
        signalConnect true rpcOk st
          = .ok ({ connected := true, outgoingQueue := [] }, st.outgoingQueue)) := by
  constructor
  · intro rpcOk st jid text h
    simp [signalSendMessage, h]
  · intro rpcOk st h
    simp [signalConnect, flushOutgoingQueue_all_ok rpcOk st.outgoingQueue h]

/-- C3 amended witness: a queue A,B,C built while disconnected is flushed on
connect as exactly the three transport sends A,B,C in order. -/
theorem offline_queue_amended_witness :
    signalConnect true (fun _ _ => true)
        ⟨false, [("sig:+1", "A"), ("sig:+1", "B"), ("sig:+1", "C")]⟩
      = .ok (⟨true, []⟩, [("sig:+1", "A"), ("sig:+1", "B"), ("sig:+1", "C")]) :=
  offline_queue_amended.2 (fun _ _ => true)
    ⟨false, [("sig:+1", "A"), ("sig:+1", "B"), ("sig:+1", "C")]⟩ (by decide)

/-! ## Claim C4 — send never raises -/

/-- C4 counterexample: a connected Slack send whose transport post fails
raises to its caller (`throw err` in `SlackChannel.sendMessage`) instead of
re-enqueueing and returning. -/
theorem send_noraise_counterexample :
    slackSendMessage (fun _ _ => false) ⟨true⟩ "slack:U1" "A"
      = .error "Failed to send Slack message" := by
  rfl

/-- C4 amended: the Signal channel's send never raises for any transport
outcome, and a failed connected attempt re-enqueues the pair; the Slack
channel's send propagates transport failures to its caller. -/
theorem send_noraise_amended :
    (∀ (rpcOk : String → String → Bool) (st : SignalState) (jid text : String),
        ∃ r, signalSendMessage rpcOk st jid text = .ok r)
    ∧ (∀ (rpcOk : String → String → Bool) (st : SignalState) (jid text : String),
        st.connected = true → rpcOk jid text = false →
        signalSendMessage rpcOk st jid text
          = .ok ({ st with outgoingQueue := st.outgoingQueue ++ [(jid, text)] },
              [(jid, text)]))
    ∧ (∀ (postOk : String → String → Bool) (st : SlackState) (jid text : String),
        postOk jid text = false →
        slackSendMessage postOk st jid text = .error "Failed to send Slack message") := by
  refine ⟨?_, ?_, ?_⟩
  · intro rpcOk st jid text
    by_cases hc : st.connected
    · by_cases hr : rpcOk jid text = true
      · exact ⟨(st, [(jid, text)]), by simp [signalSendMessage, sendViaRpc, hc, hr]⟩
      · simp only [Bool.not_eq_true] at hr
        exact ⟨({ st with outgoingQueue := st.outgoingQueue ++ [(jid, text)] }, [(jid, text)]),
          by simp [signalSendMessage, sendViaRpc, hc, hr]⟩
    · simp only [Bool.not_eq_true] at hc
      exact ⟨({ st with outgoingQueue := st.outgoingQueue ++ [(jid, text)] }, []),
        by simp [signalSendMessage, hc]⟩
  · intro rpcOk st jid text hc hr
    simp [signalSendMessage, sendViaRpc, hc, hr]
  · intro postOk st jid text h
    simp [slackSendMessage, h]

/-- C4 amended witness: a failing connected Signal send returns normally with
the pair re-enqueued. -/
theorem send_noraise_amended_witness :
    signalSendMessage (fun _ _ => false) ⟨true, []⟩ "sig:+1" "A"
      = .ok (⟨true, [("sig:+1", "A")]⟩, [("sig:+1", "A")]) :=
  send_noraise_amended.2.1 (fun _ _ => false) ⟨true, []⟩ "sig:+1" "A" rfl rfl

/-! ## Claim C7 — ownership disjointness -/

/-- C7 counterexample: with namespace `channel` the namespaced prefix becomes
`slack:channel:`, which the default instance also claims through its
`slack:channel:` rule, so both instances own `slack:channel:C1`. -/
theorem owns_disjoint_counterexample :
    slackOwnsJid "" "slack:channel:C1".data = true ∧
    slackOwnsJid "channel" "slack:channel:C1".data = true := by
  constructor
  · decide
  · decide

/-- A colon-terminated prefix of `channel:` must be all of it, because `:`
occurs in `channel:` only at the last position. -/
theorem colon_terminated_of_channel {s : List Char}
    (h : s ++ [':'] <+: "channel:".data) : s ++ [':'] = "channel:".data := by
  obtain ⟨t, ht⟩ := h
  have hget : ("channel:".data)[s.length]? = some ':' := by
    rw [← ht, List.getElem?_append_left (by simp), List.getElem?_concat_length]
  have hlen : s.length + 1 ≤ 8 := by
    have := congrArg List.length ht
    simp at this
    omega
  have h7 : s.length = 7 := by
    have hn : s.length ≤ 7 := by omega
    set n := s.length with hdef
    interval_cases n <;> first | rfl | (exact absurd hget (by decide))
  have htake : s ++ [':'] = ("channel:".data).take (s.length + 1) := by
    have h2 : (s ++ [':']) <+: "channel:".data := ⟨t, ht⟩
    have := List.prefix_iff_eq_take.mp h2
    simpa using this
  rw [h7] at htake
  rw [htake]
  decide

/-- If `channel:` is not a prefix of `ns ++ ":"`, it is not a prefix of any
extension `ns ++ ":" ++ rest` either. -/
theorem channel_prefix_clash {ns2 rest : List Char}
    (hchan : ¬ ("channel:".data <+: ns2 ++ [':']))
    (h : "channel:".data <+: ns2 ++ [':'] ++ rest) : False := by
  have h2 : (ns2 ++ [':']) <+: ns2 ++ [':'] ++ rest := List.prefix_append _ _
  rcases List.prefix_or_prefix_of_prefix h h2 with hc | hc
  · exact hchan hc
  · have heq := colon_terminated_of_channel hc
    apply hchan
    rw [heq]

/-- C7 amended: the default instance and the ns-namespaced instance never
both own a JID, provided the namespace is nonempty, begins with a character
that differs from its own uppercase (a lowercase letter, as the constructor's
comment requires), and `channel:` is not a prefix of `ns ++ ":"` (ruling out
`ns = "channel"` and namespaces starting with `channel:`).  For other
namespaces the claims overlap, as the counterexample shows. -/
theorem owns_disjoint_amended (ns : String) (jid : List Char) (c : Char)
    (hhead : ns.data.head? = some c) (hlow : c.toUpper ≠ c)
    (hchan : ¬ ("channel:".data <+: ns.data ++ [':'])) :
    ¬ (slackOwnsJid "" jid = true ∧ slackOwnsJid ns jid = true) := by
  rintro ⟨hdef, hns⟩
  have hne : ns ≠ "" := by
    intro h
    rw [h] at hhead
    exact Option.noConfusion hhead
  rw [slackOwnsJid, if_pos hne] at hns
  rw [ List.isPrefixOf_iff_prefix] at hns
  obtain ⟨t, ht⟩ := hns
  obtain ⟨l, hl⟩ : ∃ l2, ns.data = c :: l2 := by
    cases hd : ns.data with
    | nil => rw [hd] at hhead; exact Option.noConfusion hhead
    | cons a t2 =>
        rw [hd] at hhead
        simp only [List.head?_cons, Option.some.injEq] at hhead
        exact ⟨t2, by rw [hhead]⟩
  rw [slackOwnsJid, if_neg (by simp)] at hdef
  split at hdef
  · rw [Bool.or_eq_true] at hdef
    rcases hdef with h6 | hbc
    · have h6v : jid[6]? = some c := by
        rw [← ht, hl]
        have hassoc : ("slack:".data ++ (c :: l) ++ [':']) ++ t
            = "slack:".data ++ (c :: (l ++ ':' :: t)) := by
          simp [List.append_assoc]
        rw [hassoc, List.getElem?_append_right (by decide)]
        have h6l : ("slack:".data).length = 6 := by decide
        rw [h6l]
        simp
      rw [charAt6IsUpperSelf, h6v] at h6
      exact hlow (by simpa using h6)
    · rw [ List.isPrefixOf_iff_prefix] at hbc
      have hsplit : "slack:channel:".data = "slack:".data ++ "channel:".data := by decide
      rw [hsplit, ← ht] at hbc
      have hbc2 : "channel:".data <+: ns.data ++ [':'] ++ t := by
        have hassoc : ("slack:".data ++ ns.data ++ [':']) ++ t
            = "slack:".data ++ (ns.data ++ [':'] ++ t) := by
          simp [List.append_assoc]
        rw [hassoc] at hbc
        exact (List.prefix_append_right_inj _).mp hbc
      exact channel_prefix_clash hchan hbc2
  · exact absurd hdef (by simp)

/-- C7 amended witness: the default and the `cit`-namespaced instance do not
both own `slack:cit:U1`. -/
theorem owns_disjoint_amended_witness :
    ¬ (slackOwnsJid "" "slack:cit:U1".data = true ∧
        slackOwnsJid "cit" "slack:cit:U1".data = true) :=
  owns_disjoint_amended "cit" "slack:cit:U1".data 'c' (by decide) (by decide) (by decide)

end Nanoclaw
